import Mathlib

/-!
Shallow embedding of `planets/planets.py` (the installed `planets` module of the
repository): geometry primitives, the size catalog, the collision validator, the
rejection-sampling placement generator, the `Planet` entity with its
latest-value notification channel, and the `Planets` registry.

Python's process-wide random generator is modelled as an explicit stream
`rng : Nat → Nat` together with a position counter: each primitive draw
(`random.randint`, `random.choice`) reads `rng pos` and advances the position by
one.  `random.randint lo hi` on an empty range (`lo > hi`) raises `ValueError`,
modelled as the error `Err.emptyRange`; `random.choice []` raises `IndexError`,
modelled as `Err.emptyChoice`; both are raised before the stream position
advances, exactly as CPython raises before consuming randomness.  Every raised
exception carries the stream position at the moment of the raise, so "no
randomness was consumed" is visible in the error value.

The unbounded Python `while` loop of `create_random_planet` is embedded as a
fuel-indexed iteration `placementLoop`: `ok none` means the loop has not exited
within the given number of iterations, `ok (some _)` means it returned, and
`error _` means an exception escaped.  A run of the Python program that loops
forever is exactly a configuration whose embedding yields `ok none` for every
fuel value.

`uuid4` identities are modelled by a fresh-name counter threaded through planet
construction: every constructed candidate (accepted or rejected) consumes one
identity, and distinct counter values model the global uniqueness of `uuid4`.
-/

structure Coordinate where
  x : Int
  y : Int
deriving DecidableEq, Repr

structure Area where
  upper_left : Coordinate
  bottom_right : Coordinate
deriving DecidableEq, Repr

/-- Embedding of the `Tableau` constructor: the upper-left corner is fixed at
`(0, 0)` and only the bottom-right corner is supplied. -/
def Tableau (bottom_right : Coordinate) : Area :=
  { upper_left := { x := 0, y := 0 }, bottom_right := bottom_right }

inductive PlanetSize where
  | SMALL
  | MEDIUM
  | LARGE
deriving DecidableEq, Repr

/-- Numeric value carried by each member of the `PlanetSize` enum. -/
def PlanetSize.value : PlanetSize → Int
  | .SMALL => 50
  | .MEDIUM => 75
  | .LARGE => 100

/-- Players are identified by their identity (the `name` field in the source);
the mutable `home_planet` back-reference and the `color` attribute play no role
in any claim and are not part of the model. -/
abbrev Player := Nat

/-- Exceptions the embedded operations can raise.  `invalidSizeClass` is the
`ValueError` of `check_planet_size`, `emptyRange` the `ValueError` of
`random.randint` on an empty range, `emptyChoice` the `IndexError` of
`random.choice` on an empty sequence, `notFound` the `KeyError` of a dict
lookup with an unknown key. -/
inductive Err where
  | invalidSizeClass
  | emptyRange
  | emptyChoice
  | notFound
deriving DecidableEq, Repr

/-- Embedding of `random.randint(lo, hi)`: inclusive uniform draw.  On an empty
range it raises (`emptyRange`) at the current stream position without consuming
a draw; otherwise it maps the next stream value into `[lo, hi]` and advances
the position. -/
def randint (rng : Nat → Nat) (pos : Nat) (lo hi : Int) :
    Except (Err × Nat) (Int × Nat) :=
  if hi < lo then .error (.emptyRange, pos)
  else .ok (lo + (rng pos : Int) % (hi - lo + 1), pos + 1)

/-- Embedding of `random.choice(seq)`: raises (`emptyChoice`) on the empty
sequence before consuming randomness, otherwise picks the element indexed by
the next stream value and advances the position. -/
def choice {α : Type} (rng : Nat → Nat) (pos : Nat) :
    List α → Except (Err × Nat) (α × Nat)
  | [] => .error (.emptyChoice, pos)
  | a :: as => .ok ((a :: as).getD (rng pos % (a :: as).length) a, pos + 1)

/-- A value passed where the source expects a `PlanetSize`: either an actual
member of the enum or some other Python value (`invalid`). -/
inductive SizeItem where
  | valid : PlanetSize → SizeItem
  | invalid
deriving DecidableEq, Repr

/-- Embedding of `isinstance(x, PlanetSize)` on a size item. -/
def SizeItem.isPlanetSize : SizeItem → Bool
  | .valid _ => true
  | .invalid => false

/-- The `planet_size` argument of `create_random_planet`: a single value or a
Python list of values. -/
inductive SizeArg where
  | single : SizeItem → SizeArg
  | list : List SizeItem → SizeArg
deriving DecidableEq, Repr

/-- Embedding of `check_planet_size`: a list argument fails when any member is
not a `PlanetSize`; a non-list argument fails when it is not a `PlanetSize`
itself. -/
def check_planet_size : SizeArg → Except Err Unit
  | .list items => if items.all SizeItem.isPlanetSize then .ok () else .error .invalidSizeClass
  | .single it => if it.isPlanetSize then .ok () else .error .invalidSizeClass

/-- Embedding of the `Planet` entity's plain data fields.  `id` models the
`uuid4` identity.  The `planet_observable` channel is modelled separately (see
`PlanetState`). -/
structure Planet where
  id : Nat
  coordinate : Coordinate
  planet_size : PlanetSize
  home_player : Option Player
  owner : Option Player
deriving DecidableEq, Repr

/-- Embedding of `check_for_collision`: the candidate collides when some listed
planet is at squared center distance below `min_distance ** 2`. -/
def check_for_collision (planet : Planet) (collision_list : List Planet)
    (min_distance : Int) : Bool :=
  collision_list.any fun other_planet =>
    (planet.coordinate.x - other_planet.coordinate.x) ^ 2 +
      (planet.coordinate.y - other_planet.coordinate.y) ^ 2 < min_distance ^ 2

/-- Embedding of the `while planet is None or check_for_collision(...)` loop of
`create_random_planet`, with the chosen size already fixed.  Each iteration
draws an x and a y coordinate inset by `floor(planet_size.value / 2)` from the
area's corners, builds a candidate planet (consuming a fresh identity, as
`uuid4` does), and exits unless the candidate collides.  `fuel` bounds how many
iterations are observed: `ok none` means the source loop is still running after
that many iterations. -/
def placementLoop (area : Area) (min_distance : Int) (planet_size : PlanetSize)
    (collision_list : List Planet) (home_player : Option Player)
    (rng : Nat → Nat) :
    Nat → Nat → Nat → Except (Err × Nat) (Option (Planet × Nat × Nat))
  | 0, _, _ => .ok none
  | fuel + 1, pos, nid =>
    match randint rng pos (area.upper_left.x + planet_size.value / 2)
        (area.bottom_right.x - planet_size.value / 2) with
    | .error e => .error e
    | .ok (x, pos1) =>
      match randint rng pos1 (area.upper_left.y + planet_size.value / 2)
          (area.bottom_right.y - planet_size.value / 2) with
      | .error e => .error e
      | .ok (y, pos2) =>
        let planet : Planet :=
          { id := nid, coordinate := { x := x, y := y },
            planet_size := planet_size, home_player := home_player,
            owner := home_player }
        if check_for_collision planet collision_list min_distance then
          placementLoop area min_distance planet_size collision_list home_player
            rng fuel pos2 (nid + 1)
        else
          .ok (some (planet, pos2, nid + 1))

/-- Embedding of `create_random_planet`: validate the size argument, pick a
size uniformly when a list was given, then run the rejection-sampling loop.
The `owner := home_player` field of each constructed candidate embeds the
`if home_player: self.owner = home_player else: self.owner = None` branch of
`Planet.__init__`. -/
def create_random_planet (area : Area) (min_distance : Int)
    (planet_size : SizeArg) (collision_list : List Planet)
    (home_player : Option Player) (rng : Nat → Nat)
    (fuel pos nid : Nat) : Except (Err × Nat) (Option (Planet × Nat × Nat)) :=
  match check_planet_size planet_size with
  | .error e => .error (e, pos)
  | .ok _ =>
    match planet_size with
    | .list items =>
      match choice rng pos items with
      | .error e => .error e
      | .ok (.valid ps, pos') =>
        placementLoop area min_distance ps collision_list home_player rng fuel pos' nid
      | .ok (.invalid, pos') => .error (.invalidSizeClass, pos')
    | .single (.valid ps) =>
      placementLoop area min_distance ps collision_list home_player rng fuel pos nid
    | .single .invalid => .error (.invalidSizeClass, pos)

/-- The default `planet_size=list(PlanetSize)` argument: the full catalog in
declaration order. -/
def catalogArg : SizeArg :=
  .list [.valid .SMALL, .valid .MEDIUM, .valid .LARGE]

deriving instance DecidableEq for Except

/-- Embedding of the `Planets` registry's plain data fields.  `all_planet_dict`
is the Python dict as an insertion-ordered association list. -/
structure Planets where
  tableau : Area
  min_distance : Int
  players : List Player
  player_planet_list : List Planet
  planet_list : List Planet
  all_planet_dict : List (Nat × Planet)
deriving DecidableEq, Repr

/-- Embedding of Python dict assignment `d[k] = p`: overwrite an existing
binding in place, otherwise append a new one (Python dicts preserve insertion
order). -/
def dictSet (d : List (Nat × Planet)) (k : Nat) (p : Planet) :
    List (Nat × Planet) :=
  if d.any fun kv => kv.1 == k then
    d.map fun kv => if kv.1 == k then (k, p) else kv
  else d ++ [(k, p)]

/-- Embedding of Python dict lookup `d[k]` as an optional result; the `KeyError`
branch is materialised in `Planets.get_planet_by_id`. -/
def dictFind (d : List (Nat × Planet)) (k : Nat) : Option Planet :=
  (d.find? fun kv => kv.1 == k).map fun kv => kv.2

/-- Embedding of `Planets.get_all_planets`. -/
def Planets.get_all_planets (s : Planets) : List Planet :=
  s.player_planet_list ++ s.planet_list

/-- Embedding of `Planets.get_planet_by_id`: the raw dict lookup raises
`KeyError` (`Err.notFound`) on an identity the dict does not hold. -/
def Planets.get_planet_by_id (s : Planets) (planet_id : Nat) : Except Err Planet :=
  match dictFind s.all_planet_dict planet_id with
  | some p => .ok p
  | none => .error .notFound

/-- Embedding of `Planets.create_planet`: place a planet with the registry's
area and min-distance, checking collisions against `get_all_planets()`, then
index it in `all_planet_dict`.  Note the source does not append the planet to
`player_planet_list` or `planet_list`; during `__init__` the caller appends. -/
def Planets.create_planet (s : Planets) (planet_size : SizeArg)
    (home_player : Option Player) (rng : Nat → Nat) (fuel pos nid : Nat) :
    Except (Err × Nat) (Option (Planet × Planets × Nat × Nat)) :=
  match create_random_planet s.tableau s.min_distance planet_size
      s.get_all_planets home_player rng fuel pos nid with
  | .error e => .error e
  | .ok none => .ok none
  | .ok (some (planet, pos', nid')) =>
    .ok (some (planet,
      { s with all_planet_dict := dictSet s.all_planet_dict planet.id planet },
      pos', nid'))

/-- Embedding of the first `__init__` loop of `Planets`: one `MEDIUM` home
planet per player, appended to `player_planet_list` in order. -/
def placeHomes (rng : Nat → Nat) (fuel : Nat) :
    List Player → Planets → Nat → Nat →
    Except (Err × Nat) (Option (Planets × Nat × Nat))
  | [], s, pos, nid => .ok (some (s, pos, nid))
  | player :: rest, s, pos, nid =>
    match s.create_planet (.single (.valid .MEDIUM)) (some player) rng fuel pos nid with
    | .error e => .error e
    | .ok none => .ok none
    | .ok (some (planet, s', pos', nid')) =>
      placeHomes rng fuel rest
        { s' with player_planet_list := s'.player_planet_list ++ [planet] }
        pos' nid'

/-- Embedding of the second `__init__` loop of `Planets`: `number_of_planets`
unowned planets with the default full-catalog size argument, appended to
`planet_list` in order. -/
def placeFree (rng : Nat → Nat) (fuel : Nat) :
    Nat → Planets → Nat → Nat →
    Except (Err × Nat) (Option (Planets × Nat × Nat))
  | 0, s, pos, nid => .ok (some (s, pos, nid))
  | n + 1, s, pos, nid =>
    match s.create_planet catalogArg none rng fuel pos nid with
    | .error e => .error e
    | .ok none => .ok none
    | .ok (some (planet, s', pos', nid')) =>
      placeFree rng fuel n
        { s' with planet_list := s'.planet_list ++ [planet] }
        pos' nid'

/-- Embedding of `Planets.__init__`.  `random.shuffle(self.players)` is
modelled by taking the post-shuffle player order as the argument
`shuffled_players`; theorems that relate it to the caller's list take a
permutation hypothesis, since the shuffle produces some permutation of the
input. -/
def Planets.init (tableau : Area) (shuffled_players : List Player)
    (number_of_planets : Nat) (min_distance : Int) (rng : Nat → Nat)
    (fuel pos nid : Nat) : Except (Err × Nat) (Option (Planets × Nat × Nat)) :=
  let s0 : Planets :=
    { tableau := tableau, min_distance := min_distance,
      players := shuffled_players, player_planet_list := [],
      planet_list := [], all_planet_dict := [] }
  match placeHomes rng fuel shuffled_players s0 pos nid with
  | .error e => .error e
  | .ok none => .ok none
  | .ok (some (s1, pos1, nid1)) => placeFree rng fuel number_of_planets s1 pos1 nid1

/-- Post-construction registry operations modelled by the claims: standalone
`create_planet` calls (the registry's only mutating public operation). -/
inductive RegOp where
  | create (planet_size : SizeArg) (home_player : Option Player) (fuel : Nat)

/-- Run a sequence of standalone `create_planet` calls, collecting the planets
they return. -/
def runOps (rng : Nat → Nat) :
    List RegOp → Planets → Nat → Nat →
    Except (Err × Nat) (Option (Planets × List Planet × Nat × Nat))
  | [], s, pos, nid => .ok (some (s, [], pos, nid))
  | .create psz hp fuel :: rest, s, pos, nid =>
    match s.create_planet psz hp rng fuel pos nid with
    | .error e => .error e
    | .ok none => .ok none
    | .ok (some (planet, s', pos', nid')) =>
      match runOps rng rest s' pos' nid' with
      | .error e => .error e
      | .ok none => .ok none
      | .ok (some (s'', created, pos'', nid'')) =>
        .ok (some (s'', planet :: created, pos'', nid''))

/-- Modelled from the spec: the latest-value broadcast channel
(`reactivex.subject.BehaviorSubject`) used by `Planet`, whose implementation is
third-party code outside this repository.  Per the spec it caches the latest
snapshot, `subscribe` immediately delivers the current snapshot to the new
observer synchronously and registers it, and a publish updates the cache and
synchronously invokes every registered observer in subscription order.  Because
the source publishes `self` (a reference to the planet itself), the cached
latest value always coincides with the planet's current state, so a
`PlanetState` carries the planet record, the subscription-ordered observer
list, and the delivery log (each delivery is an observer paired with the
snapshot it received, appended in delivery order). -/
structure PlanetState where
  planet : Planet
  subs : List Nat
  log : List (Nat × Planet)
deriving DecidableEq, Repr

/-- Embedding of `Planet.__init__`: fields set from the arguments, `owner`
initialised to the home player when one is given, and the channel created with
the planet itself as its initial value and no observers. -/
def Planet.mkInit (coordinate : Coordinate) (planet_size : PlanetSize)
    (home_player : Option Player) (id : Nat) : PlanetState :=
  { planet :=
      { id := id, coordinate := coordinate, planet_size := planet_size,
        home_player := home_player, owner := home_player },
    subs := [], log := [] }

/-- Embedding of `Planet.set_owner`: assign the owner, then publish the planet
(`on_next(self)`) — every registered observer receives the updated snapshot, in
subscription order, before the call returns. -/
def Planet.set_owner (player : Player) (s : PlanetState) : PlanetState :=
  let planet := { s.planet with owner := some player }
  { planet := planet, subs := s.subs,
    log := s.log ++ s.subs.map fun o => (o, planet) }

/-- Embedding of `Planet.subscribe`: the new observer immediately receives the
channel's current snapshot (the planet's current state, since the source
publishes `self`) and is registered at the end of the subscription order.
Wrapping a bare function into an `Observer` changes nothing observable and is
not modelled. -/
def Planet.subscribe (o : Nat) (s : PlanetState) : PlanetState :=
  { planet := s.planet, subs := s.subs ++ [o],
    log := s.log ++ [(o, s.planet)] }

theorem randint_ok_bounds {rng : Nat → Nat} {pos : Nat} {lo hi x : Int} {pos' : Nat}
    (h : randint rng pos lo hi = .ok (x, pos')) :
    lo ≤ x ∧ x ≤ hi ∧ pos' = pos + 1 := by
  unfold randint at h
  split at h
  · exact absurd h (by simp)
  · rename_i hlt
    push_neg at hlt
    have hmod0 : (0 : Int) ≤ (rng pos : Int) % (hi - lo + 1) :=
      Int.emod_nonneg _ (by omega)
    have hmod1 : (rng pos : Int) % (hi - lo + 1) < hi - lo + 1 :=
      Int.emod_lt_of_pos _ (by omega)
    simp only [Except.ok.injEq, Prod.mk.injEq] at h
    obtain ⟨h1, h2⟩ := h
    omega

theorem placementLoop_ok_some {area : Area} {md : Int} {ps : PlanetSize}
    {cl : List Planet} {hp : Option Player} {rng : Nat → Nat}
    {fuel pos nid : Nat} {planet : Planet} {pos' nid' : Nat}
    (h : placementLoop area md ps cl hp rng fuel pos nid
      = .ok (some (planet, pos', nid'))) :
    planet.planet_size = ps ∧ planet.home_player = hp ∧ planet.owner = hp ∧
    area.upper_left.x + ps.value / 2 ≤ planet.coordinate.x ∧
    planet.coordinate.x ≤ area.bottom_right.x - ps.value / 2 ∧
    area.upper_left.y + ps.value / 2 ≤ planet.coordinate.y ∧
    planet.coordinate.y ≤ area.bottom_right.y - ps.value / 2 ∧
    check_for_collision planet cl md = false ∧
    nid ≤ planet.id ∧ planet.id < nid' := by
  induction fuel generalizing pos nid with
  | zero => simp [placementLoop] at h
  | succ fuel ih =>
    rw [placementLoop] at h
    cases hx : randint rng pos (area.upper_left.x + ps.value / 2)
        (area.bottom_right.x - ps.value / 2) with
    | error e => rw [hx] at h; simp at h
    | ok v =>
      obtain ⟨x, pos1⟩ := v
      rw [hx] at h
      dsimp only at h
      cases hy : randint rng pos1 (area.upper_left.y + ps.value / 2)
          (area.bottom_right.y - ps.value / 2) with
      | error e => rw [hy] at h; simp at h
      | ok w =>
        obtain ⟨y, pos2⟩ := w
        rw [hy] at h
        dsimp only at h
        split at h
        · have := ih h
          refine ⟨this.1, this.2.1, this.2.2.1, this.2.2.2.1, this.2.2.2.2.1,
            this.2.2.2.2.2.1, this.2.2.2.2.2.2.1, this.2.2.2.2.2.2.2.1, ?_, ?_⟩
          · omega
          · exact this.2.2.2.2.2.2.2.2.2
        · rename_i hcol
          simp only [Except.ok.injEq, Option.some.injEq, Prod.mk.injEq] at h
          obtain ⟨hpl, hpos, hnid⟩ := h
          obtain ⟨hx1, hx2, _⟩ := randint_ok_bounds hx
          obtain ⟨hy1, hy2, _⟩ := randint_ok_bounds hy
          subst hpl
          refine ⟨rfl, rfl, rfl, hx1, hx2, hy1, hy2, ?_, ?_, ?_⟩
          · simpa using hcol
          · exact Nat.le_refl _
          · show nid < nid'
            omega

theorem create_random_planet_ok_some {area : Area} {md : Int} {psz : SizeArg}
    {cl : List Planet} {hp : Option Player} {rng : Nat → Nat}
    {fuel pos nid : Nat} {planet : Planet} {pos' nid' : Nat}
    (h : create_random_planet area md psz cl hp rng fuel pos nid
      = .ok (some (planet, pos', nid'))) :
    planet.home_player = hp ∧ planet.owner = hp ∧
    area.upper_left.x + planet.planet_size.value / 2 ≤ planet.coordinate.x ∧
    planet.coordinate.x ≤ area.bottom_right.x - planet.planet_size.value / 2 ∧
    area.upper_left.y + planet.planet_size.value / 2 ≤ planet.coordinate.y ∧
    planet.coordinate.y ≤ area.bottom_right.y - planet.planet_size.value / 2 ∧
    check_for_collision planet cl md = false ∧
    nid ≤ planet.id ∧ planet.id < nid' := by
  cases psz with
  | single it =>
    cases it with
    | valid ps =>
      simp only [create_random_planet, check_planet_size, SizeItem.isPlanetSize,
        if_true] at h
      have hl := placementLoop_ok_some h
      rw [hl.1]
      exact ⟨hl.2.1, hl.2.2.1, hl.2.2.2.1, hl.2.2.2.2.1, hl.2.2.2.2.2.1,
        hl.2.2.2.2.2.2.1, hl.2.2.2.2.2.2.2.1, hl.2.2.2.2.2.2.2.2.1,
        hl.2.2.2.2.2.2.2.2.2⟩
    | invalid =>
      simp [create_random_planet, check_planet_size, SizeItem.isPlanetSize] at h
  | list items =>
    by_cases hall : items.all SizeItem.isPlanetSize
    · simp only [create_random_planet, check_planet_size, hall, if_true] at h
      cases hch : choice rng pos items with
      | error e => rw [hch] at h; simp at h
      | ok v =>
        obtain ⟨it, pos1⟩ := v
        rw [hch] at h
        cases it with
        | valid ps =>
          dsimp only at h
          have hl := placementLoop_ok_some h
          rw [hl.1]
          exact ⟨hl.2.1, hl.2.2.1, hl.2.2.2.1, hl.2.2.2.2.1, hl.2.2.2.2.2.1,
            hl.2.2.2.2.2.2.1, hl.2.2.2.2.2.2.2.1, hl.2.2.2.2.2.2.2.2.1,
            hl.2.2.2.2.2.2.2.2.2⟩
        | invalid => simp at h
    · simp only [create_random_planet, check_planet_size, if_neg hall] at h
      simp at h

/-- Constant-zero random stream, used for concrete runs. -/
def rng0 : Nat → Nat := fun _ => 0

/-- Identity random stream, used for concrete runs. -/
def rngId : Nat → Nat := fun k => k

/-- A planet at the center of the `(0,0)–(120,120)` region; with
`min_distance = 200` no drawable coordinate is far enough from it, so the
placement loop can never exit. -/
def centerPlanet : Planet :=
  { id := 0, coordinate := { x := 60, y := 60 }, planet_size := .SMALL,
    home_player := none, owner := none }

/-- Claim C1: the source's rejection-sampling retry is NOT bounded and no
`PlacementExhausted` condition exists (the `Err` type of the embedding lists
every exception the source can raise; none is an attempt-budget failure).
This theorem evaluates the code on infeasible inputs.  First two conjuncts:
on the region `(0,0)–(120,120)` with `min_distance = 200`, one already-placed
planet at the center and size `SMALL`, every candidate collides, so for every
random stream and every iteration count the loop is still running (`ok none`):
the Python `while` loop never terminates, it does not fail after a finite
maximum attempt count.  Last two conjuncts: on the spec's infeasible scenario
(far corner `(20,20)`, min-distance 50, count 5) the first coordinate draw has
an empty range and the code raises the `randint` `ValueError` (`emptyRange`) —
again not a `PlacementExhausted` condition. -/
theorem c1_retry_not_bounded :
    (∀ (rng : Nat → Nat) (fuel pos nid : Nat),
      placementLoop (Tableau ⟨120, 120⟩) 200 .SMALL [centerPlanet] none rng
        fuel pos nid = .ok none) ∧
    (∀ (rng : Nat → Nat) (fuel pos nid : Nat),
      create_random_planet (Tableau ⟨120, 120⟩) 200 (.single (.valid .SMALL))
        [centerPlanet] none rng fuel pos nid = .ok none) ∧
    (∀ (fuel pos nid : Nat),
      create_random_planet (Tableau ⟨20, 20⟩) 50 catalogArg [] none rng0
        (fuel + 1) pos nid = .error (.emptyRange, pos + 1)) ∧
    (∀ (fuel pos nid : Nat),
      Planets.init (Tableau ⟨20, 20⟩) [] 5 50 rng0 (fuel + 1) pos nid
        = .error (.emptyRange, pos + 1)) := by
  have key : ∀ a b : Int, 0 ≤ a → a < 71 → 0 ≤ b → b < 71 →
      (25 + a - 60) ^ 2 + (25 + b - 60) ^ 2 < 200 ^ 2 := by
    intro a b ha1 ha2 hb1 hb2
    have h1 : (25 + a - 60) ^ 2 ≤ 35 ^ 2 := sq_le_sq' (by omega) (by omega)
    have h2 : (25 + b - 60) ^ 2 ≤ 35 ^ 2 := sq_le_sq' (by omega) (by omega)
    have h3 : (35 : Int) ^ 2 = 1225 := by norm_num
    have h4 : (200 : Int) ^ 2 = 40000 := by norm_num
    rw [h3] at h1 h2
    rw [h4]
    linarith
  have loop : ∀ (rng : Nat → Nat) (fuel pos nid : Nat),
      placementLoop (Tableau ⟨120, 120⟩) 200 .SMALL [centerPlanet] none rng
        fuel pos nid = .ok none := by
    intro rng fuel
    induction fuel with
    | zero => intro pos nid; rfl
    | succ fuel ih =>
      intro pos nid
      rw [placementLoop]
      have harea : (Tableau ⟨120, 120⟩).upper_left.x + PlanetSize.SMALL.value / 2 = 25 := by
        norm_num [Tableau, PlanetSize.value]
      have harea2 : (Tableau ⟨120, 120⟩).bottom_right.x - PlanetSize.SMALL.value / 2 = 95 := by
        norm_num [Tableau, PlanetSize.value]
      have harea3 : (Tableau ⟨120, 120⟩).upper_left.y + PlanetSize.SMALL.value / 2 = 25 := by
        norm_num [Tableau, PlanetSize.value]
      have harea4 : (Tableau ⟨120, 120⟩).bottom_right.y - PlanetSize.SMALL.value / 2 = 95 := by
        norm_num [Tableau, PlanetSize.value]
      rw [harea, harea2, harea3, harea4]
      have hx : randint rng pos 25 95 = .ok (25 + (rng pos : Int) % 71, pos + 1) := by
        norm_num [randint]
      have hy : randint rng (pos + 1) 25 95
          = .ok (25 + (rng (pos + 1) : Int) % 71, pos + 2) := by
        norm_num [randint]
      rw [hx]
      dsimp only
      rw [hy]
      dsimp only
      rw [if_pos]
      · exact ih (pos + 2) (nid + 1)
      · simp only [check_for_collision, centerPlanet, List.any_cons, List.any_nil,
          Bool.or_false, decide_eq_true_eq]
        exact key _ _ (Int.emod_nonneg _ (by norm_num)) (Int.emod_lt_of_pos _ (by norm_num))
          (Int.emod_nonneg _ (by norm_num)) (Int.emod_lt_of_pos _ (by norm_num))
  have crp : ∀ (fuel pos nid : Nat),
      create_random_planet (Tableau ⟨20, 20⟩) 50 catalogArg [] none rng0
        (fuel + 1) pos nid = .error (.emptyRange, pos + 1) := by
    intro fuel pos nid
    simp only [create_random_planet, catalogArg, check_planet_size, List.all_cons,
      List.all_nil, SizeItem.isPlanetSize, Bool.and_true, Bool.and_self, if_true,
      choice, rng0, List.length_cons, List.length_nil, Nat.zero_mod, List.getD,
      List.get?_cons_zero, Option.getD_some]
    rw [placementLoop]
    norm_num [randint, Tableau, PlanetSize.value]
  refine ⟨loop, ?_, crp, ?_⟩
  · intro rng fuel pos nid
    simp only [create_random_planet, check_planet_size, SizeItem.isPlanetSize, if_true]
    exact loop rng fuel pos nid
  · intro fuel pos nid
    simp only [Planets.init, placeHomes, placeFree, Planets.create_planet,
      Planets.get_all_planets, List.append_nil]
    rw [crp fuel pos nid]

/-- The planet produced by a concrete `create_random_planet` run on the region
`(0,0)–(150,150)` with size class `MEDIUM` and the constant-zero stream: the
draw `randint(0 + 75 // 2, 150 - 75 // 2) = randint(37, 113)` yields 37 on both
axes. -/
def mediumRunPlanet : Planet :=
  { id := 0, coordinate := { x := 37, y := 37 }, planet_size := .MEDIUM,
    home_player := none, owner := none }

/-- Claim C3, counterexample: the placement generator can produce a planet
whose coordinate is NOT inset from the region origin by at least half its
size-class scale.  The concrete run places a `MEDIUM` planet (scale 75) at
`x = 37`, and no inset of at least `75 / 2` (i.e. `2 * inset ≥ 75`) admits
`origin.x + inset ≤ 37`: the code insets by `floor(scale / 2) = 37`, which for
odd scales is strictly less than half the scale. -/
theorem c3_half_inset_false :
    create_random_planet (Tableau ⟨150, 150⟩) 10 (.single (.valid .MEDIUM)) []
      none rng0 1 0 0 = .ok (some (mediumRunPlanet, 2, 1)) ∧
    (Tableau ⟨150, 150⟩).upper_left.x = 0 ∧
    ¬ ∃ inset : Int, mediumRunPlanet.planet_size.value ≤ 2 * inset ∧
        (Tableau ⟨150, 150⟩).upper_left.x + inset ≤ mediumRunPlanet.coordinate.x := by
  refine ⟨by rfl, rfl, ?_⟩
  rintro ⟨inset, h1, h2⟩
  simp only [mediumRunPlanet, PlanetSize.value, Tableau] at h1 h2
  omega

/-- Claim C3 (amended): every planet produced by a terminating
`create_random_planet` call has both coordinates within the region inset on
each axis by `floor(scale / 2)` — the integer half of the planet's size-class
scale, which is exactly half for even scales and half a unit less for odd
scales: `origin + scale / 2 ≤ coordinate ≤ farCorner - scale / 2` with
integer (floor) division. -/
theorem c3_inset_floor_half {area : Area} {md : Int} {psz : SizeArg}
    {cl : List Planet} {hp : Option Player} {rng : Nat → Nat}
    {fuel pos nid : Nat} {planet : Planet} {pos' nid' : Nat}
    (h : create_random_planet area md psz cl hp rng fuel pos nid
      = .ok (some (planet, pos', nid'))) :
    area.upper_left.x + planet.planet_size.value / 2 ≤ planet.coordinate.x ∧
    planet.coordinate.x ≤ area.bottom_right.x - planet.planet_size.value / 2 ∧
    area.upper_left.y + planet.planet_size.value / 2 ≤ planet.coordinate.y ∧
    planet.coordinate.y ≤ area.bottom_right.y - planet.planet_size.value / 2 := by
  have hs := create_random_planet_ok_some h
  exact ⟨hs.2.2.1, hs.2.2.2.1, hs.2.2.2.2.1, hs.2.2.2.2.2.1⟩

/-- Witness for `c3_inset_floor_half` at the concrete `MEDIUM` run. -/
theorem c3_inset_floor_half_witness :
    (Tableau ⟨150, 150⟩).upper_left.x + mediumRunPlanet.planet_size.value / 2
        ≤ mediumRunPlanet.coordinate.x ∧
    mediumRunPlanet.coordinate.x
        ≤ (Tableau ⟨150, 150⟩).bottom_right.x - mediumRunPlanet.planet_size.value / 2 ∧
    (Tableau ⟨150, 150⟩).upper_left.y + mediumRunPlanet.planet_size.value / 2
        ≤ mediumRunPlanet.coordinate.y ∧
    mediumRunPlanet.coordinate.y
        ≤ (Tableau ⟨150, 150⟩).bottom_right.y - mediumRunPlanet.planet_size.value / 2 :=
  c3_inset_floor_half (show create_random_planet (Tableau ⟨150, 150⟩) 10
    (.single (.valid .MEDIUM)) [] none rng0 1 0 0
      = .ok (some (mediumRunPlanet, 2, 1)) from by rfl)

/-- Claim C8: a size argument that is not a recognized catalog value — a
non-`PlanetSize` single value, or a list containing a non-`PlanetSize` member —
makes `create_random_planet` fail with the `InvalidSizeClass` condition
(`check_planet_size`'s `ValueError`) at stream position `pos`, the entry
position: no random draw is consumed before the validation failure. -/
theorem c8_invalid_size_fails_before_randomness (area : Area) (md : Int)
    (cl : List Planet) (hp : Option Player) (rng : Nat → Nat)
    (fuel pos nid : Nat) (items : List SizeItem)
    (hmem : SizeItem.invalid ∈ items) :
    create_random_planet area md (.single .invalid) cl hp rng fuel pos nid
      = .error (.invalidSizeClass, pos) ∧
    create_random_planet area md (.list items) cl hp rng fuel pos nid
      = .error (.invalidSizeClass, pos) := by
  constructor
  · simp [create_random_planet, check_planet_size, SizeItem.isPlanetSize]
  · have hall : items.all SizeItem.isPlanetSize = false := by
      rw [List.all_eq_false]
      exact ⟨_, hmem, by simp [SizeItem.isPlanetSize]⟩
    simp [create_random_planet, check_planet_size, hall]

/-- Witness for `c8_invalid_size_fails_before_randomness` at a concrete
invalid member. -/
theorem c8_invalid_size_fails_before_randomness_witness :
    create_random_planet (Tableau ⟨150, 150⟩) 10 (.single .invalid) [] none
      rng0 1 0 0 = .error (.invalidSizeClass, 0) ∧
    create_random_planet (Tableau ⟨150, 150⟩) 10
      (.list [.valid .SMALL, .invalid]) [] none rng0 1 0 0
      = .error (.invalidSizeClass, 0) :=
  c8_invalid_size_fails_before_randomness (Tableau ⟨150, 150⟩) 10 [] none
    rng0 1 0 0 [.valid .SMALL, .invalid] (by decide)

/-- Claim C10: the empty list passes `check_planet_size` vacuously (`all` of an
empty list is true), so `create_random_planet` does not fail with
`InvalidSizeClass`; it fails at the next step, when `random.choice` draws from
the empty list (`IndexError`, modelled as `emptyChoice`). -/
theorem c10_empty_size_list_passes_validation (area : Area) (md : Int)
    (cl : List Planet) (hp : Option Player) (rng : Nat → Nat)
    (fuel pos nid : Nat) :
    check_planet_size (.list []) = .ok () ∧
    create_random_planet area md (.list []) cl hp rng fuel pos nid
      = .error (.emptyChoice, pos) := by
  constructor
  · rfl
  · simp [create_random_planet, check_planet_size, choice]

theorem filter_fst_map_const_pair (q : Planet) (ob : Nat) (l : List Nat) :
    ((l.map fun x => (x, q)).filter fun e => e.1 == ob).length = l.count ob := by
  induction l with
  | nil => rfl
  | cons x xs ih =>
    by_cases hx : x = ob
    · subst hx
      simp only [List.map_cons, List.filter_cons, beq_self_eq_true, if_true,
        List.length_cons, List.count_cons_self, ih]
    · have hb : (x == ob) = false := by simp [hx]
      simp only [List.map_cons, List.filter_cons, hb, List.count_cons, ih,
        if_false, add_zero]
      simp only [hb, if_false, Bool.false_eq_true]
      exact ih

/-- Claim C4: `set_owner(p)` sets the planet's owner to `p` and then publishes:
the delivery log grows by exactly the current subscribers, each paired with the
new snapshot, in subscription order (the model's `set_owner` is a pure function,
so every delivery happens before it returns — the synchronous fan-out of the
spec).  Every delivered snapshot's owner is `p`; an observer registered `k`
times receives exactly `k` new snapshots (so a once-registered subscriber
receives exactly one).  The final conjunct shows `subscribe`, the only other
operation of the entity's interface, publishes nothing to the existing
subscribers: it only hands the cached current snapshot to the new observer —
`set_owner` is the only producer of notification events. -/
theorem c4_set_owner_publishes_once_in_order (s : PlanetState) (p : Player) (o : Nat) :
    (Planet.set_owner p s).planet.owner = some p ∧
    (Planet.set_owner p s).log
      = s.log ++ s.subs.map (fun ob => (ob, (Planet.set_owner p s).planet)) ∧
    (∀ e ∈ (Planet.set_owner p s).log.drop s.log.length, e.2.owner = some p) ∧
    (∀ ob : Nat,
      (((Planet.set_owner p s).log.drop s.log.length).filter
        fun e => e.1 == ob).length = s.subs.count ob) ∧
    (Planet.subscribe o s).log = s.log ++ [(o, s.planet)] := by
  refine ⟨rfl, rfl, ?_, ?_, rfl⟩
  · intro e he
    rw [Planet.set_owner] at he
    dsimp only at he
    rw [List.drop_left] at he
    obtain ⟨ob, _, rfl⟩ := List.mem_map.mp he
    rfl
  · intro ob
    rw [Planet.set_owner]
    dsimp only
    rw [List.drop_left]
    exact filter_fst_map_const_pair _ ob s.subs

/-- Claim C5: `subscribe(observer)` immediately and synchronously delivers the
channel's current snapshot — which is the planet's current state, owner
included, because the source's channel caches the planet object itself — and
registers the observer at the end of the subscription order; afterwards every
published snapshot is also delivered to it.  The observer's deliveries gain
exactly the one current-state entry (a late subscriber sees no history), and on
a freshly constructed planet the delivered snapshot's owner is the owner at
subscribe time (the home player), with no prior `set_owner` call. -/
theorem c5_subscribe_delivers_current_snapshot (s : PlanetState) (o : Nat)
    (p : Player) (c : Coordinate) (ps : PlanetSize) (hp : Option Player)
    (id : Nat) :
    (Planet.subscribe o s).log = s.log ++ [(o, s.planet)] ∧
    (Planet.subscribe o s).subs = s.subs ++ [o] ∧
    (Planet.subscribe o s).planet = s.planet ∧
    ((Planet.subscribe o s).log.filter fun e => e.1 == o)
      = (s.log.filter fun e => e.1 == o) ++ [(o, s.planet)] ∧
    (Planet.set_owner p (Planet.subscribe o s)).log
      = s.log ++ [(o, s.planet)]
        ++ (s.subs ++ [o]).map (fun ob => (ob, { s.planet with owner := some p })) ∧
    (Planet.subscribe o (Planet.mkInit c ps hp id)).log
      = [(o, { id := id, coordinate := c, planet_size := ps,
               home_player := hp, owner := hp })] ∧
    (Planet.mkInit c ps hp id).planet.owner = hp := by
  refine ⟨rfl, rfl, rfl, ?_, rfl, ?_, rfl⟩
  · rw [Planet.subscribe]
    dsimp only
    rw [List.filter_append]
    simp
  · rw [Planet.mkInit, Planet.subscribe]
    rfl

theorem dictSet_append_of_fresh {d : List (Nat × Planet)} {k : Nat} {p : Planet}
    (h : ∀ kv ∈ d, kv.1 ≠ k) : dictSet d k p = d ++ [(k, p)] := by
  have hc : (d.any fun kv => kv.1 == k) = false := by
    rw [List.any_eq_false]
    intro kv hkv
    simp [h kv hkv]
  unfold dictSet
  rw [hc]
  simp

theorem create_planet_ok_some {reg : Planets} {psz : SizeArg} {hp : Option Player}
    {rng : Nat → Nat} {fuel pos nid : Nat} {planet : Planet} {reg' : Planets}
    {pos' nid' : Nat}
    (h : reg.create_planet psz hp rng fuel pos nid
      = .ok (some (planet, reg', pos', nid'))) :
    create_random_planet reg.tableau reg.min_distance psz reg.get_all_planets hp
      rng fuel pos nid = .ok (some (planet, pos', nid')) ∧
    reg' = { reg with
      all_planet_dict := dictSet reg.all_planet_dict planet.id planet } := by
  unfold Planets.create_planet at h
  cases hc : create_random_planet reg.tableau reg.min_distance psz
      reg.get_all_planets hp rng fuel pos nid with
  | error e => rw [hc] at h; simp at h
  | ok v =>
    rw [hc] at h
    cases v with
    | none => simp at h
    | some t =>
      obtain ⟨pl, p2, n2⟩ := t
      dsimp only at h
      simp only [Except.ok.injEq, Option.some.injEq, Prod.mk.injEq] at h
      obtain ⟨hpl, hreg, hpos, hnid⟩ := h
      subst hpl; subst hpos; subst hnid
      exact ⟨rfl, hreg.symm⟩

theorem create_planet_spec {reg : Planets} {psz : SizeArg} {hp : Option Player}
    {rng : Nat → Nat} {fuel pos nid : Nat} {planet : Planet} {reg' : Planets}
    {pos' nid' : Nat}
    (h : reg.create_planet psz hp rng fuel pos nid
      = .ok (some (planet, reg', pos', nid')))
    (hfresh : ∀ kv ∈ reg.all_planet_dict, kv.1 < nid) :
    reg'.all_planet_dict = reg.all_planet_dict ++ [(planet.id, planet)] ∧
    reg'.player_planet_list = reg.player_planet_list ∧
    reg'.planet_list = reg.planet_list ∧
    reg'.tableau = reg.tableau ∧ reg'.min_distance = reg.min_distance ∧
    reg'.players = reg.players ∧
    nid ≤ planet.id ∧ planet.id < nid' ∧
    planet.home_player = hp ∧ planet.owner = hp ∧
    check_for_collision planet reg.get_all_planets reg.min_distance = false ∧
    (∀ kv ∈ reg'.all_planet_dict, kv.1 < nid') := by
  obtain ⟨hcr, hreg⟩ := create_planet_ok_some h
  have hs := create_random_planet_ok_some hcr
  have hid1 : nid ≤ planet.id := hs.2.2.2.2.2.2.2.1
  have hid2 : planet.id < nid' := hs.2.2.2.2.2.2.2.2
  have happ : dictSet reg.all_planet_dict planet.id planet
      = reg.all_planet_dict ++ [(planet.id, planet)] :=
    dictSet_append_of_fresh fun kv hkv => by
      have := hfresh kv hkv
      omega
  subst hreg
  refine ⟨happ, rfl, rfl, rfl, rfl, rfl, hid1, hid2, hs.1, hs.2.1,
    hs.2.2.2.2.2.2.1, ?_⟩
  intro kv hkv
  rw [happ] at hkv
  rcases List.mem_append.mp hkv with hold | hnew
  · have := hfresh kv hold
    omega
  · rw [List.mem_singleton] at hnew
    subst hnew
    exact hid2

/-- Claim C9: ownership is the only entity field that mutates, and only through
`set_owner`: `set_owner` preserves the coordinate, size class, home player and
identity while setting the owner; `subscribe` — the entity's only other
operation — leaves the whole entity unchanged; and the registry's only mutating
operation, `create_planet`, leaves both entity lists untouched and only appends
the new entity to the identity index, so no existing entity is modified (the
freshness hypothesis models `uuid4` never repeating an identity). -/
theorem c9_owner_is_only_mutable_field (s : PlanetState) (p : Player) (o : Nat)
    (reg : Planets) (psz : SizeArg) (hp : Option Player) (rng : Nat → Nat)
    (fuel pos nid : Nat) (planet : Planet) (reg' : Planets) (pos' nid' : Nat)
    (hcr : reg.create_planet psz hp rng fuel pos nid
      = .ok (some (planet, reg', pos', nid')))
    (hfresh : ∀ kv ∈ reg.all_planet_dict, kv.1 < nid) :
    (Planet.set_owner p s).planet.coordinate = s.planet.coordinate ∧
    (Planet.set_owner p s).planet.planet_size = s.planet.planet_size ∧
    (Planet.set_owner p s).planet.home_player = s.planet.home_player ∧
    (Planet.set_owner p s).planet.id = s.planet.id ∧
    (Planet.set_owner p s).planet.owner = some p ∧
    (Planet.subscribe o s).planet = s.planet ∧
    reg'.player_planet_list = reg.player_planet_list ∧
    reg'.planet_list = reg.planet_list ∧
    reg'.all_planet_dict = reg.all_planet_dict ++ [(planet.id, planet)] := by
  have hspec := create_planet_spec hcr hfresh
  exact ⟨rfl, rfl, rfl, rfl, rfl, rfl, hspec.2.1, hspec.2.2.1, hspec.1⟩

/-- Registry with no players, no free planets, region `(0,0)–(200,200)` and
`min_distance = 5`, as produced by `Planets.init` with an empty player list and
zero planet count. -/
def emptyReg : Planets :=
  { tableau := Tableau ⟨200, 200⟩, min_distance := 5, players := [],
    player_planet_list := [], planet_list := [], all_planet_dict := [] }

/-- First planet created by a standalone `create_planet` call on `emptyReg`
with the constant-zero stream: `randint(25, 175)` yields 25 twice. -/
def smallRunPlanetA : Planet :=
  { id := 0, coordinate := { x := 25, y := 25 }, planet_size := .SMALL,
    home_player := none, owner := none }

/-- Second planet created by the next standalone `create_planet` call: the
same coordinate, because the collision list `get_all_planets()` does not
contain the first standalone planet (it was only put in `all_planet_dict`). -/
def smallRunPlanetB : Planet :=
  { id := 1, coordinate := { x := 25, y := 25 }, planet_size := .SMALL,
    home_player := none, owner := none }

/-- The registry state holding both standalone planets in its identity index. -/
def collidedReg : Planets :=
  { emptyReg with
    all_planet_dict := [(0, smallRunPlanetA), (1, smallRunPlanetB)] }

/-- Claim C2: after a successful registry construction followed by two
successful standalone `create_planet` calls, the registry holds (and serves by
identity) two distinct entities at center distance 0 < `min_distance`:
standalone-created planets are indexed in `all_planet_dict` but never appended
to `player_planet_list` or `planet_list`, so the next call's collision list
`get_all_planets()` does not include them and the pairwise-distance invariant
over the entities held by the registry is violated. -/
theorem c2_standalone_create_violates_min_distance :
    Planets.init (Tableau ⟨200, 200⟩) [] 0 5 rng0 1 0 0
      = .ok (some (emptyReg, 0, 0)) ∧
    runOps rng0 [.create (.single (.valid .SMALL)) none 1,
        .create (.single (.valid .SMALL)) none 1] emptyReg 0 0
      = .ok (some (collidedReg, [smallRunPlanetA, smallRunPlanetB], 4, 2)) ∧
    collidedReg.get_planet_by_id 0 = .ok smallRunPlanetA ∧
    collidedReg.get_planet_by_id 1 = .ok smallRunPlanetB ∧
    smallRunPlanetA.id ≠ smallRunPlanetB.id ∧
    (smallRunPlanetA.coordinate.x - smallRunPlanetB.coordinate.x) ^ 2 +
        (smallRunPlanetA.coordinate.y - smallRunPlanetB.coordinate.y) ^ 2
      < collidedReg.min_distance ^ 2 := by
  refine ⟨by rfl, by rfl, by rfl, by rfl, by decide, by norm_num [smallRunPlanetA,
    smallRunPlanetB, collidedReg, emptyReg]⟩

theorem dictFind_of_mem :
    ∀ {d : List (Nat × Planet)}, (d.map Prod.fst).Nodup →
      ∀ {kp : Nat × Planet}, kp ∈ d → dictFind d kp.1 = some kp.2 := by
  intro d
  induction d with
  | nil => intro _ kp h; simp at h
  | cons hd tl ih =>
    intro hnd kp hmem
    rw [List.map_cons, List.nodup_cons] at hnd
    rcases List.mem_cons.mp hmem with heq | htl
    · subst heq
      unfold dictFind
      rw [@List.find?_cons_of_pos _ (fun kv => kv.1 == kp.1) kp tl (by simp)]
      rfl
    · have hk : kp.1 ∈ tl.map Prod.fst := List.mem_map_of_mem _ htl
      have hne : ¬ ((fun kv => kv.1 == kp.1) hd = true) := by
        simp only [beq_iff_eq]
        intro he
        exact hnd.1 (he ▸ hk)
      unfold dictFind
      rw [@List.find?_cons_of_neg _ (fun kv => kv.1 == kp.1) hd tl hne]
      exact ih hnd.2 htl

theorem dictFind_eq_none {d : List (Nat × Planet)} {k : Nat}
    (h : ∀ kv ∈ d, kv.1 ≠ k) : dictFind d k = none := by
  have hf : d.find? (fun kv => kv.1 == k) = none :=
    List.find?_eq_none.mpr fun kv hkv => by simp [h kv hkv]
  unfold dictFind
  rw [hf]
  rfl

theorem get_planet_by_id_of_mem {s : Planets}
    (hnd : (s.all_planet_dict.map Prod.fst).Nodup)
    {kp : Nat × Planet} (hmem : kp ∈ s.all_planet_dict) :
    s.get_planet_by_id kp.1 = .ok kp.2 := by
  unfold Planets.get_planet_by_id
  rw [dictFind_of_mem hnd hmem]

theorem get_planet_by_id_of_unknown {s : Planets} {k : Nat}
    (h : ∀ kv ∈ s.all_planet_dict, kv.1 ≠ k) :
    s.get_planet_by_id k = .error .notFound := by
  unfold Planets.get_planet_by_id
  rw [dictFind_eq_none h]

/-- Well-formedness of the identity index relative to the fresh-identity
counter: every binding maps a key to the planet carrying that key as its
identity, every key is below the counter (it was issued in the past), and keys
are pairwise distinct. -/
def DictWF (s : Planets) (nid : Nat) : Prop :=
  (∀ kv ∈ s.all_planet_dict, kv.2.id = kv.1 ∧ kv.1 < nid) ∧
  (s.all_planet_dict.map Prod.fst).Nodup

/-- During registry construction the identity index holds exactly the planets
of the two entity lists, in creation order. -/
def DictMatches (s : Planets) : Prop :=
  s.all_planet_dict = s.get_all_planets.map fun p => (p.id, p)

theorem create_planet_dictWF {reg : Planets} {psz : SizeArg} {hp : Option Player}
    {rng : Nat → Nat} {fuel pos nid : Nat} {planet : Planet} {reg' : Planets}
    {pos' nid' : Nat}
    (h : reg.create_planet psz hp rng fuel pos nid
      = .ok (some (planet, reg', pos', nid')))
    (hwf : DictWF reg nid) :
    DictWF reg' nid' ∧
    reg'.all_planet_dict = reg.all_planet_dict ++ [(planet.id, planet)] ∧
    reg'.player_planet_list = reg.player_planet_list ∧
    reg'.planet_list = reg.planet_list ∧
    reg'.tableau = reg.tableau ∧ reg'.min_distance = reg.min_distance ∧
    reg'.players = reg.players ∧ nid ≤ nid' ∧
    planet.home_player = hp ∧ planet.owner = hp ∧
    check_for_collision planet reg.get_all_planets reg.min_distance = false := by
  have hfresh : ∀ kv ∈ reg.all_planet_dict, kv.1 < nid :=
    fun kv hkv => (hwf.1 kv hkv).2
  have hspec := create_planet_spec h hfresh
  obtain ⟨happ, hppl, hpl, htab, hmd, hplr, hle, hlt, hhp, how, hcol, hkeys⟩ := hspec
  refine ⟨⟨?_, ?_⟩, happ, hppl, hpl, htab, hmd, hplr, by omega, hhp, how, hcol⟩
  · intro kv hkv
    rw [happ] at hkv
    rcases List.mem_append.mp hkv with hold | hnew
    · obtain ⟨he, hb⟩ := hwf.1 kv hold
      exact ⟨he, by omega⟩
    · rw [List.mem_singleton] at hnew
      subst hnew
      exact ⟨rfl, hlt⟩
  · rw [happ, List.map_append]
    rw [List.nodup_append]
    refine ⟨hwf.2, List.nodup_singleton _, ?_⟩
    intro k hk hk'
    simp only [List.map_cons, List.map_nil, List.mem_singleton] at hk'
    obtain ⟨kv, hkv, rfl⟩ := List.mem_map.mp hk
    have := hfresh kv hkv
    omega

theorem runOps_spec {rng : Nat → Nat} :
    ∀ (ops : List RegOp) (s : Planets) (pos nid : Nat) (s' : Planets)
      (created : List Planet) (pos' nid' : Nat),
      runOps rng ops s pos nid = .ok (some (s', created, pos', nid')) →
      DictWF s nid →
      s'.all_planet_dict
        = s.all_planet_dict ++ created.map (fun p => (p.id, p)) ∧
      DictWF s' nid' ∧
      s'.player_planet_list = s.player_planet_list ∧
      s'.planet_list = s.planet_list := by
  intro ops
  induction ops with
  | nil =>
    intro s pos nid s' created pos' nid' h hwf
    simp only [runOps, Except.ok.injEq, Option.some.injEq, Prod.mk.injEq] at h
    obtain ⟨rfl, rfl, rfl, rfl⟩ := h
    simpa using hwf
  | cons op rest ih =>
    intro s pos nid s' created pos' nid' h hwf
    obtain ⟨psz, hp, fuel⟩ := op
    rw [runOps] at h
    cases hc : s.create_planet psz hp rng fuel pos nid with
    | error e => rw [hc] at h; simp at h
    | ok v =>
      rw [hc] at h
      cases v with
      | none => simp at h
      | some t =>
        obtain ⟨planet, s1, pos1, nid1⟩ := t
        dsimp only at h
        cases hr : runOps rng rest s1 pos1 nid1 with
        | error e => rw [hr] at h; simp at h
        | ok w =>
          rw [hr] at h
          cases w with
          | none => simp at h
          | some u =>
            obtain ⟨s2, created2, pos2, nid2⟩ := u
            dsimp only at h
            simp only [Except.ok.injEq, Option.some.injEq, Prod.mk.injEq] at h
            obtain ⟨rfl, rfl, rfl, rfl⟩ := h
            have hcp := create_planet_dictWF hc hwf
            have hrest := ih s1 pos1 nid1 _ _ _ _ hr hcp.1
            refine ⟨?_, hrest.2.1, ?_, ?_⟩
            · rw [hrest.1, hcp.2.1, List.map_cons, List.append_assoc,
                List.singleton_append]
            · rw [hrest.2.2.1, hcp.2.2.1]
            · rw [hrest.2.2.2, hcp.2.2.2.1]

theorem placeHomes_spec {rng : Nat → Nat} {fuel : Nat} :
    ∀ (players : List Player) (s : Planets) (pos nid : Nat) (s' : Planets)
      (pos' nid' : Nat),
      placeHomes rng fuel players s pos nid = .ok (some (s', pos', nid')) →
      DictWF s nid → DictMatches s → s.planet_list = [] →
      ∃ newPlanets : List Planet,
        s'.player_planet_list = s.player_planet_list ++ newPlanets ∧
        s'.planet_list = [] ∧
        newPlanets.map Planet.home_player = players.map some ∧
        newPlanets.map Planet.owner = players.map some ∧
        DictWF s' nid' ∧ DictMatches s' ∧
        s'.tableau = s.tableau ∧ s'.min_distance = s.min_distance ∧
        s'.players = s.players := by
  intro players
  induction players with
  | nil =>
    intro s pos nid s' pos' nid' h hwf hm hpl
    simp only [placeHomes, Except.ok.injEq, Option.some.injEq, Prod.mk.injEq] at h
    obtain ⟨rfl, rfl, rfl⟩ := h
    exact ⟨[], by simp, hpl, rfl, rfl, hwf, hm, rfl, rfl, rfl⟩
  | cons player rest ih =>
    intro s pos nid s' pos' nid' h hwf hm hpl
    rw [placeHomes] at h
    cases hc : s.create_planet (.single (.valid .MEDIUM)) (some player) rng
        fuel pos nid with
    | error e => rw [hc] at h; simp at h
    | ok v =>
      rw [hc] at h
      cases v with
      | none => simp at h
      | some t =>
        obtain ⟨planet, s1, pos1, nid1⟩ := t
        dsimp only at h
        have hcp := create_planet_dictWF hc hwf
        have hwf2 : DictWF
            { s1 with player_planet_list := s1.player_planet_list ++ [planet] }
            nid1 := hcp.1
        have hm2 : DictMatches
            { s1 with player_planet_list := s1.player_planet_list ++ [planet] } := by
          unfold DictMatches Planets.get_all_planets at hm ⊢
          dsimp only
          rw [hcp.2.1, hcp.2.2.1, hcp.2.2.2.1, hpl, hm, hpl]
          simp
        have hpl2 :
            ({ s1 with player_planet_list := s1.player_planet_list ++ [planet] }
              : Planets).planet_list = [] := by
          dsimp only
          rw [hcp.2.2.2.1, hpl]
        obtain ⟨nps, h1, h2, h3, h4, h5, h6, h7, h8, h9⟩ :=
          ih _ pos1 nid1 s' pos' nid' h hwf2 hm2 hpl2
        refine ⟨planet :: nps, ?_, h2, ?_, ?_, h5, h6, ?_, ?_, ?_⟩
        · rw [h1]
          dsimp only
          rw [hcp.2.2.1]
          simp
        · rw [List.map_cons, h3, hcp.2.2.2.2.2.2.2.2.1, List.map_cons]
        · rw [List.map_cons, h4, hcp.2.2.2.2.2.2.2.2.2.1, List.map_cons]
        · rw [h7]
          dsimp only
          rw [hcp.2.2.2.2.1]
        · rw [h8]
          dsimp only
          rw [hcp.2.2.2.2.2.1]
        · rw [h9]
          dsimp only
          rw [hcp.2.2.2.2.2.2.1]

theorem placeFree_spec {rng : Nat → Nat} {fuel : Nat} :
    ∀ (n : Nat) (s : Planets) (pos nid : Nat) (s' : Planets) (pos' nid' : Nat),
      placeFree rng fuel n s pos nid = .ok (some (s', pos', nid')) →
      DictWF s nid → DictMatches s →
      ∃ newPlanets : List Planet,
        s'.planet_list = s.planet_list ++ newPlanets ∧
        s'.player_planet_list = s.player_planet_list ∧
        newPlanets.length = n ∧
        (∀ p ∈ newPlanets, p.home_player = none ∧ p.owner = none) ∧
        DictWF s' nid' ∧ DictMatches s' ∧
        s'.tableau = s.tableau ∧ s'.min_distance = s.min_distance ∧
        s'.players = s.players := by
  intro n
  induction n with
  | zero =>
    intro s pos nid s' pos' nid' h hwf hm
    simp only [placeFree, Except.ok.injEq, Option.some.injEq, Prod.mk.injEq] at h
    obtain ⟨rfl, rfl, rfl⟩ := h
    exact ⟨[], by simp, rfl, rfl, by simp, hwf, hm, rfl, rfl, rfl⟩
  | succ n ih =>
    intro s pos nid s' pos' nid' h hwf hm
    rw [placeFree] at h
    cases hc : s.create_planet catalogArg none rng fuel pos nid with
    | error e => rw [hc] at h; simp at h
    | ok v =>
      rw [hc] at h
      cases v with
      | none => simp at h
      | some t =>
        obtain ⟨planet, s1, pos1, nid1⟩ := t
        dsimp only at h
        have hcp := create_planet_dictWF hc hwf
        have hwf2 : DictWF
            { s1 with planet_list := s1.planet_list ++ [planet] } nid1 := hcp.1
        have hm2 : DictMatches
            { s1 with planet_list := s1.planet_list ++ [planet] } := by
          unfold DictMatches Planets.get_all_planets at hm ⊢
          dsimp only
          rw [hcp.2.1, hcp.2.2.1, hcp.2.2.2.1, hm]
          simp
        obtain ⟨nps, h1, h2, h3, h4, h5, h6, h7, h8, h9⟩ :=
          ih _ pos1 nid1 s' pos' nid' h hwf2 hm2
        refine ⟨planet :: nps, ?_, ?_, ?_, ?_, h5, h6, ?_, ?_, ?_⟩
        · rw [h1]
          dsimp only
          rw [hcp.2.2.2.1]
          simp
        · rw [h2]
          dsimp only
          rw [hcp.2.2.1]
        · simp [h3]
        · intro p hp
          rcases List.mem_cons.mp hp with rfl | hmem
          · exact ⟨hcp.2.2.2.2.2.2.2.2.1, hcp.2.2.2.2.2.2.2.2.2.1⟩
          · exact h4 p hmem
        · rw [h7]
          dsimp only
          rw [hcp.2.2.2.2.1]
        · rw [h8]
          dsimp only
          rw [hcp.2.2.2.2.2.1]
        · rw [h9]
          dsimp only
          rw [hcp.2.2.2.2.2.2.1]

theorem init_spec {tableau : Area} {shuffled_players : List Player} {n : Nat}
    {md : Int} {rng : Nat → Nat} {fuel pos nid : Nat} {s' : Planets}
    {pos' nid' : Nat}
    (h : Planets.init tableau shuffled_players n md rng fuel pos nid
      = .ok (some (s', pos', nid'))) :
    s'.player_planet_list.map Planet.home_player = shuffled_players.map some ∧
    s'.player_planet_list.map Planet.owner = shuffled_players.map some ∧
    s'.planet_list.length = n ∧
    (∀ p ∈ s'.planet_list, p.home_player = none ∧ p.owner = none) ∧
    DictWF s' nid' ∧ DictMatches s' ∧
    s'.players = shuffled_players ∧ s'.tableau = tableau ∧
    s'.min_distance = md := by
  unfold Planets.init at h
  dsimp only at h
  cases hh : placeHomes rng fuel shuffled_players
      { tableau := tableau, min_distance := md, players := shuffled_players,
        player_planet_list := [], planet_list := [], all_planet_dict := [] }
      pos nid with
  | error e => rw [hh] at h; simp at h
  | ok v =>
    rw [hh] at h
    cases v with
    | none => simp at h
    | some t =>
      obtain ⟨s1, pos1, nid1⟩ := t
      dsimp only at h
      obtain ⟨nps, g1, g2, g3, g4, g5, g6, g7, g8, g9⟩ :=
        placeHomes_spec shuffled_players _ pos nid s1 pos1 nid1 hh
          ⟨by simp, by simp⟩ (by unfold DictMatches Planets.get_all_planets; simp)
          rfl
      obtain ⟨fps, f1, f2, f3, f4, f5, f6, f7, f8, f9⟩ :=
        placeFree_spec n s1 pos1 nid1 s' pos' nid' h g5 g6
      have hppl : s'.player_planet_list = nps := by
        rw [f2, g1, List.nil_append]
      refine ⟨?_, ?_, ?_, ?_, f5, f6, ?_, ?_, ?_⟩
      · rw [hppl, g3]
      · rw [hppl, g4]
      · rw [f1, g2, List.nil_append, f3]
      · intro p hp
        rw [f1, g2, List.nil_append] at hp
        exact f4 p hp
      · rw [f9, g9]
      · rw [f7, g7]
      · rw [f8, g8]

theorem filter_length_of_map_eq_map_some :
    ∀ (l : List Planet) (m : List Player),
      l.map Planet.home_player = m.map some →
      ∀ p : Player,
        (l.filter fun x => x.home_player == some p).length = m.count p
  | [], [], _, p => rfl
  | [], b :: bs, h, p => by simp at h
  | a :: as, [], h, p => by simp at h
  | a :: as, b :: bs, h, p => by
    simp only [List.map_cons, List.cons.injEq] at h
    obtain ⟨h1, h2⟩ := h
    have hrec := filter_length_of_map_eq_map_some as bs h2 p
    simp only [List.filter_cons, h1, List.count_cons]
    by_cases hb : b = p
    · subst hb
      simp [hrec]
    · have hbf : (b == p) = false := by simp [hb]
      have hsf : ((some b : Option Player) == some p) = false := by simp [hb]
      simp only [hsf, hbf, if_false, Bool.false_eq_true, add_zero]
      exact hrec

/-- Claim C7: after a successful registry construction the home-entity list
has exactly one entity per player — its length equals the player count, the
i-th home entity's home player and owner are both the i-th player of the
shuffled order (so each home entity's owner equals its home player at creation
time), and when the players are pairwise distinct each player is the home
player of exactly one home entity.  `shuffled_players` is the post-shuffle
order, some permutation of the caller's `players` list. -/
theorem c7_one_home_planet_per_player {tableau : Area}
    {shuffled_players players : List Player} {n : Nat} {md : Int}
    {rng : Nat → Nat} {fuel pos nid : Nat} {s' : Planets} {pos' nid' : Nat}
    (hperm : shuffled_players.Perm players)
    (hinit : Planets.init tableau shuffled_players n md rng fuel pos nid
      = .ok (some (s', pos', nid'))) :
    s'.player_planet_list.length = players.length ∧
    s'.player_planet_list.map Planet.home_player
      = shuffled_players.map some ∧
    s'.player_planet_list.map Planet.owner = shuffled_players.map some ∧
    (∀ pl ∈ s'.player_planet_list, pl.owner = pl.home_player) ∧
    (players.Nodup → ∀ p ∈ players,
      (s'.player_planet_list.filter fun pl => pl.home_player == some p).length
        = 1) := by
  have hs := init_spec hinit
  have hlen : s'.player_planet_list.length = players.length := by
    have hl := congrArg List.length hs.1
    simp only [List.length_map] at hl
    rw [hl, hperm.length_eq]
  refine ⟨hlen, hs.1, hs.2.1, ?_, ?_⟩
  · have heq : s'.player_planet_list.map Planet.owner
        = s'.player_planet_list.map Planet.home_player := by
      rw [hs.1, hs.2.1]
    exact fun pl hpl => List.map_eq_map_iff.mp heq pl hpl
  · intro hnd p hp
    rw [filter_length_of_map_eq_map_some _ _ hs.1 p, hperm.count_eq]
    exact List.count_eq_one_of_mem hnd hp

/-- Claim C6: identities and the identity index.  After a successful
construction, the index holds exactly the planets created during construction
(the home then free lists, in creation order); every later successful
standalone `create_planet` call appends exactly the planet it returns, and
nothing is ever removed.  Every identity the registry ever issued is mapped by
`get_planet_by_id` to that same entity, and every identity it never issued
fails with the `NotFound` condition (`KeyError`). -/
theorem c6_identity_index_total {tableau : Area} {players : List Player}
    {n : Nat} {md : Int} {rng : Nat → Nat} {fuel pos nid : Nat} {s0 : Planets}
    {pos0 nid0 : Nat} {ops : List RegOp} {s1 : Planets}
    {created : List Planet} {pos1 nid1 : Nat}
    (hinit : Planets.init tableau players n md rng fuel pos nid
      = .ok (some (s0, pos0, nid0)))
    (hops : runOps rng ops s0 pos0 nid0
      = .ok (some (s1, created, pos1, nid1))) :
    s0.all_planet_dict = s0.get_all_planets.map (fun p => (p.id, p)) ∧
    s1.all_planet_dict
      = s0.all_planet_dict ++ created.map (fun p => (p.id, p)) ∧
    (∀ kp ∈ s1.all_planet_dict, s1.get_planet_by_id kp.1 = .ok kp.2) ∧
    (∀ k : Nat, (∀ kp ∈ s1.all_planet_dict, kp.1 ≠ k) →
      s1.get_planet_by_id k = .error .notFound) := by
  have hs := init_spec hinit
  have hro := runOps_spec ops s0 pos0 nid0 s1 created pos1 nid1 hops
    hs.2.2.2.2.1
  refine ⟨hs.2.2.2.2.2.1, hro.1, ?_, ?_⟩
  · intro kp hkp
    exact get_planet_by_id_of_mem hro.2.1.2 hkp
  · intro k hk
    exact get_planet_by_id_of_unknown hk

/-- First home planet of the concrete two-player construction run (player 1,
shuffled first). -/
def wHomeA : Planet :=
  { id := 0, coordinate := { x := 37, y := 38 }, planet_size := .MEDIUM,
    home_player := some 1, owner := some 1 }

/-- Second home planet of the concrete two-player construction run (player 0). -/
def wHomeB : Planet :=
  { id := 1, coordinate := { x := 39, y := 40 }, planet_size := .MEDIUM,
    home_player := some 0, owner := some 0 }

/-- Registry produced by `Planets.init (Tableau ⟨500,500⟩) [1,0] 0 1 rngId 1 0 0`. -/
def wHomeReg : Planets :=
  { tableau := Tableau ⟨500, 500⟩, min_distance := 1, players := [1, 0],
    player_planet_list := [wHomeA, wHomeB], planet_list := [],
    all_planet_dict := [(0, wHomeA), (1, wHomeB)] }

/-- Planet created by a standalone `create_planet` call on `wHomeReg`. -/
def wFreeC : Planet :=
  { id := 2, coordinate := { x := 29, y := 30 }, planet_size := .SMALL,
    home_player := none, owner := none }

/-- Registry after the standalone call appended `wFreeC` to the index. -/
def wOpsReg : Planets :=
  { wHomeReg with
    all_planet_dict := [(0, wHomeA), (1, wHomeB), (2, wFreeC)] }

/-- Witness for `c6_identity_index_total` at a concrete construction plus one
standalone `create_planet` call. -/
theorem c6_identity_index_total_witness :
    wHomeReg.all_planet_dict
      = wHomeReg.get_all_planets.map (fun p => (p.id, p)) ∧
    wOpsReg.all_planet_dict
      = wHomeReg.all_planet_dict ++ [wFreeC].map (fun p => (p.id, p)) ∧
    (∀ kp ∈ wOpsReg.all_planet_dict,
      wOpsReg.get_planet_by_id kp.1 = .ok kp.2) ∧
    (∀ k : Nat, (∀ kp ∈ wOpsReg.all_planet_dict, kp.1 ≠ k) →
      wOpsReg.get_planet_by_id k = .error .notFound) :=
  @c6_identity_index_total (Tableau ⟨500, 500⟩) [1, 0] 0 1 rngId 1 0 0
    wHomeReg 4 2 [.create (.single (.valid .SMALL)) none 1] wOpsReg [wFreeC]
    6 3 (by rfl) (by rfl)

/-- Witness for `c7_one_home_planet_per_player` at the concrete two-player
construction run. -/
theorem c7_one_home_planet_per_player_witness :
    wHomeReg.player_planet_list.length = ([0, 1] : List Player).length ∧
    wHomeReg.player_planet_list.map Planet.home_player
      = ([1, 0] : List Player).map some ∧
    wHomeReg.player_planet_list.map Planet.owner
      = ([1, 0] : List Player).map some ∧
    (∀ pl ∈ wHomeReg.player_planet_list, pl.owner = pl.home_player) ∧
    (([0, 1] : List Player).Nodup → ∀ p ∈ ([0, 1] : List Player),
      (wHomeReg.player_planet_list.filter
        fun pl => pl.home_player == some p).length = 1) :=
  @c7_one_home_planet_per_player (Tableau ⟨500, 500⟩) [1, 0] [0, 1] 0 1
    rngId 1 0 0 wHomeReg 4 2 (by decide) (by rfl)

/-- Registry holding only the first standalone-created planet. -/
def wOneReg : Planets :=
  { emptyReg with all_planet_dict := [(0, smallRunPlanetA)] }

/-- Witness for `c9_owner_is_only_mutable_field` at a concrete entity state and
a concrete `create_planet` run. -/
theorem c9_owner_is_only_mutable_field_witness :
    (Planet.set_owner 4 (Planet.mkInit ⟨1, 2⟩ .SMALL (some 7) 3)).planet.coordinate
      = (Planet.mkInit ⟨1, 2⟩ .SMALL (some 7) 3).planet.coordinate ∧
    (Planet.set_owner 4 (Planet.mkInit ⟨1, 2⟩ .SMALL (some 7) 3)).planet.planet_size
      = (Planet.mkInit ⟨1, 2⟩ .SMALL (some 7) 3).planet.planet_size ∧
    (Planet.set_owner 4 (Planet.mkInit ⟨1, 2⟩ .SMALL (some 7) 3)).planet.home_player
      = (Planet.mkInit ⟨1, 2⟩ .SMALL (some 7) 3).planet.home_player ∧
    (Planet.set_owner 4 (Planet.mkInit ⟨1, 2⟩ .SMALL (some 7) 3)).planet.id
      = (Planet.mkInit ⟨1, 2⟩ .SMALL (some 7) 3).planet.id ∧
    (Planet.set_owner 4 (Planet.mkInit ⟨1, 2⟩ .SMALL (some 7) 3)).planet.owner
      = some 4 ∧
    (Planet.subscribe 9 (Planet.mkInit ⟨1, 2⟩ .SMALL (some 7) 3)).planet
      = (Planet.mkInit ⟨1, 2⟩ .SMALL (some 7) 3).planet ∧
    wOneReg.player_planet_list = emptyReg.player_planet_list ∧
    wOneReg.planet_list = emptyReg.planet_list ∧
    wOneReg.all_planet_dict
      = emptyReg.all_planet_dict ++ [(smallRunPlanetA.id, smallRunPlanetA)] :=
  c9_owner_is_only_mutable_field (Planet.mkInit ⟨1, 2⟩ .SMALL (some 7) 3) 4 9
    emptyReg (.single (.valid .SMALL)) none rng0 1 0 0 smallRunPlanetA
    wOneReg 2 1 (by rfl) (by simp [emptyReg])

/-- Squared center-to-center distance between two planets. -/
def distSq (p q : Planet) : Int :=
  (p.coordinate.x - q.coordinate.x) ^ 2 + (p.coordinate.y - q.coordinate.y) ^ 2

/-- Every pair of distinct positions in the list is at squared center distance
at least `md ^ 2`. -/
def PairwiseFar (l : List Planet) (md : Int) : Prop :=
  l.Pairwise fun p q => md ^ 2 ≤ distSq p q

theorem distSq_comm (p q : Planet) : distSq p q = distSq q p := by
  unfold distSq
  ring

theorem check_for_collision_eq_false {planet : Planet} {cl : List Planet}
    {md : Int} (h : check_for_collision planet cl md = false) :
    ∀ q ∈ cl, md ^ 2 ≤ distSq q planet := by
  intro q hq
  unfold check_for_collision at h
  rw [List.any_eq_false] at h
  have h2 := h q hq
  simp only [decide_eq_true_eq, not_lt] at h2
  have h3 : distSq q planet
      = (planet.coordinate.x - q.coordinate.x) ^ 2
        + (planet.coordinate.y - q.coordinate.y) ^ 2 := by
    unfold distSq
    ring
  rw [h3]
  exact h2

theorem pairwiseFar_append {l : List Planet} {planet : Planet} {md : Int}
    (hl : PairwiseFar l md) (hp : ∀ q ∈ l, md ^ 2 ≤ distSq q planet) :
    PairwiseFar (l ++ [planet]) md := by
  unfold PairwiseFar at hl ⊢
  rw [List.pairwise_append]
  refine ⟨hl, List.pairwise_singleton _ _, ?_⟩
  intro a ha b hb
  rw [List.mem_singleton] at hb
  subst hb
  exact hp a ha

theorem placeHomes_pairwiseFar {rng : Nat → Nat} {fuel : Nat} :
    ∀ (players : List Player) (s : Planets) (pos nid : Nat) (s' : Planets)
      (pos' nid' : Nat),
      placeHomes rng fuel players s pos nid = .ok (some (s', pos', nid')) →
      s.planet_list = [] →
      PairwiseFar s.get_all_planets s.min_distance →
      PairwiseFar s'.get_all_planets s'.min_distance ∧
      s'.min_distance = s.min_distance := by
  intro players
  induction players with
  | nil =>
    intro s pos nid s' pos' nid' h _ hfar
    simp only [placeHomes, Except.ok.injEq, Option.some.injEq, Prod.mk.injEq] at h
    obtain ⟨rfl, rfl, rfl⟩ := h
    exact ⟨hfar, rfl⟩
  | cons player rest ih =>
    intro s pos nid s' pos' nid' h hpl hfar
    rw [placeHomes] at h
    cases hc : s.create_planet (.single (.valid .MEDIUM)) (some player) rng
        fuel pos nid with
    | error e => rw [hc] at h; simp at h
    | ok v =>
      rw [hc] at h
      cases v with
      | none => simp at h
      | some t =>
        obtain ⟨planet, s1, pos1, nid1⟩ := t
        dsimp only at h
        obtain ⟨hcr, hs1⟩ := create_planet_ok_some hc
        have hcol : check_for_collision planet s.get_all_planets s.min_distance
            = false :=
          (create_random_planet_ok_some hcr).2.2.2.2.2.2.1
        have hga : ({ s1 with
              player_planet_list := s1.player_planet_list ++ [planet] }
            : Planets).get_all_planets = s.get_all_planets ++ [planet] := by
          subst hs1
          unfold Planets.get_all_planets
          dsimp only
          rw [hpl]
          simp [Planets.get_all_planets, hpl]
        have hmd1 : ({ s1 with
              player_planet_list := s1.player_planet_list ++ [planet] }
            : Planets).min_distance = s.min_distance := by
          subst hs1
          rfl
        have hpl1 : ({ s1 with
              player_planet_list := s1.player_planet_list ++ [planet] }
            : Planets).planet_list = [] := by
          subst hs1
          exact hpl
        have hfar1 : PairwiseFar ({ s1 with
              player_planet_list := s1.player_planet_list ++ [planet] }
            : Planets).get_all_planets
            ({ s1 with player_planet_list := s1.player_planet_list ++ [planet] }
            : Planets).min_distance := by
          rw [hga, hmd1]
          exact pairwiseFar_append hfar (check_for_collision_eq_false hcol)
        have := ih _ pos1 nid1 s' pos' nid' h hpl1 hfar1
        rw [hmd1] at this
        exact this

theorem placeFree_pairwiseFar {rng : Nat → Nat} {fuel : Nat} :
    ∀ (n : Nat) (s : Planets) (pos nid : Nat) (s' : Planets) (pos' nid' : Nat),
      placeFree rng fuel n s pos nid = .ok (some (s', pos', nid')) →
      PairwiseFar s.get_all_planets s.min_distance →
      PairwiseFar s'.get_all_planets s'.min_distance ∧
      s'.min_distance = s.min_distance := by
  intro n
  induction n with
  | zero =>
    intro s pos nid s' pos' nid' h hfar
    simp only [placeFree, Except.ok.injEq, Option.some.injEq, Prod.mk.injEq] at h
    obtain ⟨rfl, rfl, rfl⟩ := h
    exact ⟨hfar, rfl⟩
  | succ n ih =>
    intro s pos nid s' pos' nid' h hfar
    rw [placeFree] at h
    cases hc : s.create_planet catalogArg none rng fuel pos nid with
    | error e => rw [hc] at h; simp at h
    | ok v =>
      rw [hc] at h
      cases v with
      | none => simp at h
      | some t =>
        obtain ⟨planet, s1, pos1, nid1⟩ := t
        dsimp only at h
        obtain ⟨hcr, hs1⟩ := create_planet_ok_some hc
        have hcol : check_for_collision planet s.get_all_planets s.min_distance
            = false :=
          (create_random_planet_ok_some hcr).2.2.2.2.2.2.1
        have hga : ({ s1 with planet_list := s1.planet_list ++ [planet] }
            : Planets).get_all_planets = s.get_all_planets ++ [planet] := by
          subst hs1
          unfold Planets.get_all_planets
          dsimp only
          rw [List.append_assoc]
        have hmd1 : ({ s1 with planet_list := s1.planet_list ++ [planet] }
            : Planets).min_distance = s.min_distance := by
          subst hs1
          rfl
        have hfar1 : PairwiseFar ({ s1 with
              planet_list := s1.planet_list ++ [planet] } : Planets).get_all_planets
            ({ s1 with planet_list := s1.planet_list ++ [planet] }
            : Planets).min_distance := by
          rw [hga, hmd1]
          exact pairwiseFar_append hfar (check_for_collision_eq_false hcol)
        have := ih _ pos1 nid1 s' pos' nid' h hfar1
        rw [hmd1] at this
        exact this

/-- Construction-time half of the registry's min-distance invariant: after a
successful `Planets.__init__`, every two distinct entities of
`get_all_planets()` are at center distance at least `min_distance` (stated on
squared distances, as the source compares them).  This is the part of the
invariant standalone `create_planet` calls later break (see the C2 theorem). -/
theorem init_min_distance_invariant {tableau : Area}
    {shuffled_players : List Player} {n : Nat} {md : Int} {rng : Nat → Nat}
    {fuel pos nid : Nat} {s' : Planets} {pos' nid' : Nat}
    (h : Planets.init tableau shuffled_players n md rng fuel pos nid
      = .ok (some (s', pos', nid'))) :
    ∀ p ∈ s'.get_all_planets, ∀ q ∈ s'.get_all_planets, p ≠ q →
      md ^ 2 ≤ distSq p q := by
  unfold Planets.init at h
  dsimp only at h
  cases hh : placeHomes rng fuel shuffled_players
      { tableau := tableau, min_distance := md, players := shuffled_players,
        player_planet_list := [], planet_list := [], all_planet_dict := [] }
      pos nid with
  | error e => rw [hh] at h; simp at h
  | ok v =>
    rw [hh] at h
    cases v with
    | none => simp at h
    | some t =>
      obtain ⟨s1, pos1, nid1⟩ := t
      dsimp only at h
      have h0 : PairwiseFar
          ({ tableau := tableau, min_distance := md, players := shuffled_players,
             player_planet_list := [], planet_list := [], all_planet_dict := [] }
            : Planets).get_all_planets md := by
        unfold PairwiseFar Planets.get_all_planets
        simp
      obtain ⟨hfar1, hmd1⟩ :=
        placeHomes_pairwiseFar shuffled_players _ pos nid s1 pos1 nid1 hh rfl h0
      obtain ⟨hfar2, hmd2⟩ :=
        placeFree_pairwiseFar n s1 pos1 nid1 s' pos' nid' h hfar1
      rw [hmd1] at hmd2
      rw [hmd2] at hfar2
      intro p hp q hq hne
      exact List.Pairwise.forall
        (fun a b hab => by rw [distSq_comm] at hab; exact hab) hfar2 hp hq hne
